import Mathlib

/-!
Verification development for the dgit version-control engine.

Shallow embedding of the repository core, translated from the C++ sources:
  - src/core/sha1.cpp            (SHA1 hasher)
  - src/objects/object.cpp       (object codec: framing, trees, deserialization)
  - src/objects/object_database.cpp (object storage framing)
  - src/refs/refs.cpp            (reference store)
  - src/core/index.cpp           (staging index)
  - src/merge/merge.cpp          (three-way merge engine)

Byte strings are modelled as `List Nat` (each element a byte value) and
C++ std::string values that are manipulated character-wise are modelled as
`List Char` where inductive reasoning is needed, or `String` for opaque
names.  Machine integers are Nat with explicit reduction mod 2^32 where the
C++ works on uint32_t.  Fallible operations return `Except String`
mirroring thrown GitException values; unbounded recursion in the source is
modelled with an explicit fuel parameter whose exhaustion is `Option.none`.
-/

namespace DGit

/-! ## SHA-1 hasher, from src/core/sha1.cpp

The C++ class has state members h0_..h4_ (uint32_t), a 64-byte buffer,
message_length_ (bit count) and a finalized_ flag (declared in the header,
which mirrors the uses in sha1.cpp).  The target platforms of the build are
little-endian, so the two reinterpret_cast digest serializations in
SHA1::final write and read the five state words in little-endian byte
order. -/

/-- Modulus for uint32_t arithmetic. -/
def M32 : Nat := 4294967296

/-- left_rotate from sha1.cpp line 15: (value << count) | (value >> (32 - count))
on uint32_t, so the left shift is reduced mod 2^32. -/
def rotl (v : Nat) (c : Nat) : Nat :=
  ((v <<< c) % M32) ||| (v >>> (32 - c))

/-- The SHA-1 round constants K[4] from sha1.cpp line 10. -/
def K0 : Nat := 0x5A827999

/-- Second round constant. -/
def K1 : Nat := 0x6ED9EBA1

/-- Third round constant. -/
def K2 : Nat := 0x8F1BBCDC

/-- Fourth round constant. -/
def K3 : Nat := 0xCA62C1D6

/-- State of a SHA1 object: the five hash words, the block buffer (at most
64 bytes), the message length in bits, and the finalized flag. -/
structure SHA1State where
  h0 : Nat
  h1 : Nat
  h2 : Nat
  h3 : Nat
  h4 : Nat
  buffer : List Nat
  msgLen : Nat
  finalized : Bool
deriving Repr, DecidableEq

/-- SHA1::SHA1() constructor, sha1.cpp line 19. -/
def SHA1.mkInit : SHA1State :=
  { h0 := 0x67452301, h1 := 0xEFCDAB89, h2 := 0x98BADCFE,
    h3 := 0x10325476, h4 := 0xC3D2E1F0, buffer := [], msgLen := 0,
    finalized := false }

/-- Message-schedule preparation, sha1.cpp lines 68-71: each group of four
buffer bytes is combined big-endian into a 32-bit word. -/
def bytesToWords : List Nat → List Nat
  | b0 :: b1 :: b2 :: b3 :: rest =>
      ((b0 <<< 24) ||| (b1 <<< 16) ||| (b2 <<< 8) ||| b3) :: bytesToWords rest
  | _ => []

/-- Message-schedule extension, sha1.cpp lines 73-75: repeatedly append
rotl1 of the xor of the words 3, 8, 14 and 16 positions back.  The counter
is the number of words still to append (64 when starting from 16 words). -/
def extendSchedule (ws : List Nat) : Nat → List Nat
  | 0 => ws
  | Nat.succ n =>
      let l := ws.length
      let w := rotl ((ws.getD (l - 3) 0) ^^^ (ws.getD (l - 8) 0) ^^^
                    (ws.getD (l - 14) 0) ^^^ (ws.getD (l - 16) 0)) 1
      extendSchedule (ws ++ [w]) n

/-- Round function f, sha1.cpp lines 83-95.  The C++ ~b on uint32_t is
xor with 0xFFFFFFFF. -/
def sha1F (i b c d : Nat) : Nat :=
  if i < 20 then (b &&& c) ||| ((b ^^^ 0xFFFFFFFF) &&& d)
  else if i < 40 then b ^^^ c ^^^ d
  else if i < 60 then (b &&& c) ||| (b &&& d) ||| (c &&& d)
  else b ^^^ c ^^^ d

/-- Round constant selection, sha1.cpp lines 83-95. -/
def sha1K (i : Nat) : Nat :=
  if i < 20 then K0 else if i < 40 then K1 else if i < 60 then K2 else K3

/-- One main round, sha1.cpp lines 97-102. -/
def sha1Round (st : Nat × Nat × Nat × Nat × Nat) (iw : Nat × Nat) :
    Nat × Nat × Nat × Nat × Nat :=
  let (a, b, c, d, e) := st
  let (i, w) := iw
  let temp := (rotl a 5 + sha1F i b c d + e + sha1K i + w) % M32
  (temp, a, rotl b 30, c, d)

/-- SHA1::process_block, sha1.cpp lines 64-111. -/
def processBlock (s : SHA1State) : SHA1State :=
  let ws := extendSchedule (bytesToWords s.buffer) 64
  let (a, b, c, d, e) := ws.enum.foldl sha1Round (s.h0, s.h1, s.h2, s.h3, s.h4)
  { s with h0 := (s.h0 + a) % M32, h1 := (s.h1 + b) % M32,
           h2 := (s.h2 + c) % M32, h3 := (s.h3 + d) % M32,
           h4 := (s.h4 + e) % M32 }

/-- One iteration of the loop in SHA1::update, sha1.cpp lines 28-36: append
the byte, add 8 to the bit length, process the buffer when it reaches 64
bytes. -/
def absorbByte (s : SHA1State) (b : Nat) : SHA1State :=
  let s1 := { s with buffer := s.buffer ++ [b], msgLen := s.msgLen + 8 }
  if s1.buffer.length = 64 then
    let s2 := processBlock s1
    { s2 with buffer := [] }
  else s1

/-- The body of SHA1::update after the finalized check (the loop over the
input bytes). -/
def absorb (s : SHA1State) (data : List Nat) : SHA1State :=
  data.foldl absorbByte s

/-- SHA1::update, sha1.cpp lines 23-37: throws when already finalized,
otherwise absorbs all bytes. -/
def SHA1.update (s : SHA1State) (data : List Nat) : Except String SHA1State :=
  if s.finalized then Except.error "SHA1: Cannot update after finalization"
  else Except.ok (absorb s data)

/-- The eight big-endian bytes of the 64-bit message length appended by
SHA1::pad_message, sha1.cpp lines 127-129. -/
def lenBytes (msgLen : Nat) : List Nat :=
  [(msgLen >>> 56) &&& 0xFF, (msgLen >>> 48) &&& 0xFF, (msgLen >>> 40) &&& 0xFF,
   (msgLen >>> 32) &&& 0xFF, (msgLen >>> 24) &&& 0xFF, (msgLen >>> 16) &&& 0xFF,
   (msgLen >>> 8) &&& 0xFF, msgLen &&& 0xFF]

/-- SHA1::pad_message followed by the process_block call in SHA1::final,
sha1.cpp lines 48-49 and 113-130.  On entry the buffer holds fewer than 64
bytes (update processes and clears it at 64).  Appending 0x80 either leaves
room in the current block for the length (at most 56 bytes so far), or an
extra all-padding block is processed first; the byte-at-a-time while loop of
the C++ collapses to these two cases. -/
def padProcess (s : SHA1State) : SHA1State :=
  let b1 := s.buffer ++ [0x80]
  if b1.length ≤ 56 then
    processBlock { s with buffer := b1 ++ List.replicate (56 - b1.length) 0 ++ lenBytes s.msgLen }
  else
    let s2 := processBlock { s with buffer := b1 ++ List.replicate (64 - b1.length) 0 }
    processBlock { s2 with buffer := List.replicate 56 0 ++ lenBytes s.msgLen }

/-- Lowercase hexadecimal digit for a value below 16, as produced by the
std::hex stream output in binary_to_hex. -/
def hexDigit (n : Nat) : Char :=
  Char.ofNat (if n < 10 then 48 + n else 87 + n)

/-- Two-digit zero-filled lowercase hex rendering of one byte. -/
def byteToHex (b : Nat) : String :=
  String.mk [hexDigit (b / 16), hexDigit (b % 16)]

/-- binary_to_hex, sha1.cpp lines 167-176: each byte as two lowercase hex
digits, concatenated. -/
def binaryToHex (bytes : List Nat) : String :=
  bytes.foldl (fun acc b => acc ++ byteToHex b) ""

/-- The four bytes of a uint32_t as laid out in memory on the little-endian
target platforms: least significant byte first. -/
def wordLE (w : Nat) : List Nat :=
  [w % 256, w / 256 % 256, w / 65536 % 256, w / 16777216 % 256]

/-- The digest bytes built by the first finalization path of SHA1::final,
sha1.cpp lines 53-59: hash_words[i] = h_i stores each state word into the
byte array in native (little-endian) order. -/
def digestBytesStore (s : SHA1State) : List Nat :=
  wordLE s.h0 ++ wordLE s.h1 ++ wordLE s.h2 ++ wordLE s.h3 ++ wordLE s.h4

/-- The digest bytes read by the already-finalized path of SHA1::final,
sha1.cpp line 45: the 20 bytes in memory starting at h0_, i.e. the bytes of
the five consecutive uint32_t members in native (little-endian) order. -/
def digestBytesMembers (s : SHA1State) : List Nat :=
  wordLE s.h0 ++ wordLE s.h1 ++ wordLE s.h2 ++ wordLE s.h3 ++ wordLE s.h4

/-- SHA1::final, sha1.cpp lines 43-62: when already finalized, re-serialize
the stored state words; otherwise pad, process the last block, set the
flag, and serialize. -/
def SHA1.finalize (s : SHA1State) : String × SHA1State :=
  if s.finalized then
    (binaryToHex (digestBytesMembers s), s)
  else
    let s1 := padProcess s
    let s2 := { s1 with finalized := true }
    (binaryToHex (digestBytesStore s2), s2)

/-- SHA1::hash (static), sha1.cpp lines 132-136: fresh state, update with
the data (never throws on a fresh state), final. -/
def SHA1.hash (data : List Nat) : String :=
  (SHA1.finalize (absorb SHA1.mkInit data)).1

/-- The byte values of an ASCII string literal, for writing concrete byte
strings. -/
def asciiBytes (s : String) : List Nat :=
  s.data.map Char.toNat

/-- Modelled from the spec: the standard FIPS 180-4 digest serialization
(big-endian word order), used to compare the code digests against the
known-answer values the specification requires. -/
def wordBE (w : Nat) : List Nat :=
  [w / 16777216 % 256, w / 65536 % 256, w / 256 % 256, w % 256]

/-- Modelled from the spec: digest bytes of the five state words serialized
big-endian as FIPS 180-4 prescribes. -/
def digestBytesBE (s : SHA1State) : List Nat :=
  wordBE s.h0 ++ wordBE s.h1 ++ wordBE s.h2 ++ wordBE s.h3 ++ wordBE s.h4

/-- Modelled from the spec: the standard SHA-1 hex digest (same compression
pipeline as the code, standard big-endian serialization). -/
def sha1HexBE (data : List Nat) : String :=
  binaryToHex (digestBytesBE (padProcess (absorb SHA1.mkInit data)))

/-! ## Object codec, from src/objects/object.cpp -/

/-- ObjectType from the object header, the four object kinds. -/
inductive ObjectType where
  | blob
  | tree
  | commit
  | tag
deriving Repr, DecidableEq

/-- The kind word chosen by the switch statements in Object::compute_id
(object.cpp lines 17-30) and ObjectDatabase::store (object_database.cpp
lines 29-42). -/
def ObjectType.word : ObjectType → String
  | .blob => "blob"
  | .tree => "tree"
  | .commit => "commit"
  | .tag => "tag"

/-- Structural helper for decimal printing: the first argument is a
recursion bound (any bound at least the value itself suffices, since the
value shrinks by a factor of ten at each step). -/
def decDigitsAux : Nat → Nat → List Nat
  | 0, n => [48 + n % 10]
  | fuel + 1, n => if n < 10 then [48 + n] else decDigitsAux fuel (n / 10) ++ [48 + n % 10]

/-- Decimal digit bytes of a nonnegative integer as printed by operator<<
on a stream (most significant digit first). -/
def decDigits (n : Nat) : List Nat :=
  decDigitsAux n n

/-- The bytes hashed by Object::compute_id, object.cpp lines 32-33:
oss << header << " " << data_.size() << "\x5c0" << data_.  The "\x5c0"
argument is a const char pointer to an empty C string, so operator<<
writes nothing: the produced bytes are the kind word, a space, the decimal
length, and the payload, with NO NUL separator. -/
def computeIdData (t : ObjectType) (data : List Nat) : List Nat :=
  asciiBytes t.word ++ [32] ++ decDigits data.length ++ data

/-- Object::compute_id, object.cpp lines 15-35: the object id is
SHA1::hash of the bytes above. -/
def Object.compute_id (t : ObjectType) (data : List Nat) : String :=
  SHA1.hash (computeIdData t data)

/-- The framed bytes built by ObjectDatabase::store, object_database.cpp
lines 44-46: oss << header << " " << data.size() << "\x5c0" << data, the
same empty-C-string "\x5c0" as in compute_id, so again no NUL separator is
written.  These bytes are what gets zlib-deflated and written to disk. -/
def ObjectDatabase.storeFramedData (t : ObjectType) (data : List Nat) : List Nat :=
  asciiBytes t.word ++ [32] ++ decDigits data.length ++ data

/-- Modelled from the spec: the framed form the specification prescribes,
kind word, space, decimal length, a single NUL byte, then the payload.
Kept for comparison with the framing the code actually produces. -/
def specFramedData (t : ObjectType) (data : List Nat) : List Nat :=
  asciiBytes t.word ++ [32] ++ decDigits data.length ++ [0] ++ data

/-- Result of Object::deserialize: Blob keeps the parsed content; for the
other kinds the parsed content is discarded by the source (it constructs
an empty Tree() / Commit() / placeholder Tag). -/
inductive DeserializedObject where
  | blob (data : List Nat)
  | tree
  | commit
  | tag
deriving Repr, DecidableEq

/-- std::string::find(char) on a byte string: the index of the first
occurrence, none when absent. -/
def strFind (b : Nat) : List Nat → Option Nat
  | [] => none
  | x :: xs => if x = b then some 0 else (strFind b xs).map (· + 1)

/-- Object::deserialize, object.cpp lines 41-85: find the first NUL (throw
when absent), split into header and content, find the space in the header
(throw when absent), dispatch on the kind word, and build the object; only
Blob keeps the content. -/
def Object.deserialize (raw : List Nat) : Except String DeserializedObject :=
  match strFind 0 raw with
  | none => Except.error "Invalid object data: no null terminator"
  | some nullPos =>
    let header := raw.take nullPos
    let content := raw.drop (nullPos + 1)
    match strFind 32 header with
    | none => Except.error "Invalid object header: no space"
    | some spacePos =>
      let typeStr := header.take spacePos
      if typeStr = asciiBytes "blob" then Except.ok (DeserializedObject.blob content)
      else if typeStr = asciiBytes "tree" then Except.ok DeserializedObject.tree
      else if typeStr = asciiBytes "commit" then Except.ok DeserializedObject.commit
      else if typeStr = asciiBytes "tag" then Except.ok DeserializedObject.tag
      else Except.error ("Unknown object type: " ++ String.mk (typeStr.map Char.ofNat))

/-- Modelled from the spec: FileMode with the numeric values of the
spec mode table read as octal (the enum lives in the missing header
dgit/object.hpp; index.cpp line 65 casts raw st_mode bits to FileMode, so
the enumerators carry POSIX mode-bit values). -/
inductive FileMode where
  | Regular
  | Executable
  | Directory
  | Symlink
  | Gitlink
deriving Repr, DecidableEq

/-- Modelled from the spec: the integer value of each FileMode enumerator
(octal 100644, 100755, 40000, 120000, 160000). -/
def FileMode.toInt : FileMode → Nat
  | .Regular => 33188
  | .Executable => 33261
  | .Directory => 16384
  | .Symlink => 40960
  | .Gitlink => 57344

/-- A tree entry (mode, id, name) as stored in Tree::entries_. -/
structure TreeEntry where
  mode : FileMode
  id : String
  name : String
deriving Repr, DecidableEq

/-- Lexicographic byte-wise comparison of character lists, the order
implemented by operator< on std::string. -/
def charsLt : List Char → List Char → Bool
  | [], [] => false
  | [], _ :: _ => true
  | _ :: _, [] => false
  | a :: as, b :: bs =>
      if a.toNat < b.toNat then true
      else if b.toNat < a.toNat then false
      else charsLt as bs

/-- operator< on std::string applied to the character data. -/
def strLt (a b : String) : Bool := charsLt a.data b.data

/-- Value of one hex character as parsed by std::stoi(..., 16). -/
def hexVal (c : Char) : Nat :=
  if 48 ≤ c.toNat ∧ c.toNat ≤ 57 then c.toNat - 48
  else if 97 ≤ c.toNat ∧ c.toNat ≤ 102 then c.toNat - 87
  else if 65 ≤ c.toNat ∧ c.toNat ≤ 70 then c.toNat - 55
  else 0

/-- The 20 raw id bytes written by Tree::add_entry, object.cpp lines
106-109: byte i is stoi of the two hex characters at positions 2i and
2i+1 of the 40-character hex id. -/
def oidRawBytes (id : String) : List Nat :=
  (List.range 20).map (fun i =>
    hexVal (id.data.getD (2 * i) 'x') * 16 + hexVal (id.data.getD (2 * i + 1) 'x'))

/-- The bytes one tree entry contributes to the tree payload, object.cpp
lines 103-109: oss << static_cast int of the mode << " " << name << "\x5c0"
then the 20 raw id bytes.  The "\x5c0" writes nothing (empty C string), so
there is NO NUL between the name and the id bytes; the mode is printed as
the decimal rendering of the enumerator value. -/
def treeEntryBytes (e : TreeEntry) : List Nat :=
  decDigits e.mode.toInt ++ [32] ++ asciiBytes e.name ++ oidRawBytes e.id

/-- Ascending insertion by entry name with the comparator of object.cpp
lines 96-99 (a.name < b.name on std::string, lexicographic byte order). -/
def insertByName (e : TreeEntry) : List TreeEntry → List TreeEntry
  | [] => [e]
  | x :: xs => if strLt e.name x.name then e :: x :: xs else x :: insertByName e xs

/-- Sorting the entry vector with std::sort and the name comparator;
for distinct names the result is the unique ascending arrangement. -/
def sortByName (es : List TreeEntry) : List TreeEntry :=
  es.foldl (fun acc e => insertByName e acc) []

/-- Tree::add_entry, object.cpp lines 92-113: append the entry then sort
by name.  The payload rebuild is `Tree.data` below. -/
def Tree.add_entry (entries : List TreeEntry) (e : TreeEntry) : List TreeEntry :=
  sortByName (entries ++ [e])

/-- The tree payload rebuilt by Tree::add_entry, object.cpp lines 102-111:
the concatenation of the per-entry bytes over the sorted entry list. -/
def Tree.payloadData (entries : List TreeEntry) : List Nat :=
  (entries.map treeEntryBytes).flatten

/-- Modelled from the spec: the bytes one tree entry should contribute,
mode as octal text, space, name, NUL, then 20 raw id bytes. -/
def specTreeEntryBytes (e : TreeEntry) : List Nat :=
  asciiBytes (match e.mode with
    | .Regular => "100644"
    | .Executable => "100755"
    | .Directory => "40000"
    | .Symlink => "120000"
    | .Gitlink => "160000") ++ [32] ++ asciiBytes e.name ++ [0] ++ oidRawBytes e.id

/-- Modelled from the spec: the sort key for tree entries, the name with a
trailing slash appended for directory entries. -/
def specSortKey (e : TreeEntry) : String :=
  e.name ++ (if e.mode = FileMode.Directory then "/" else "")

/-- Modelled from the spec: ascending insertion by the spec sort key. -/
def specInsertEntry (e : TreeEntry) : List TreeEntry → List TreeEntry
  | [] => [e]
  | x :: xs =>
      if strLt (specSortKey e) (specSortKey x) then e :: x :: xs
      else x :: specInsertEntry e xs

/-- Modelled from the spec: the entry order the spec requires. -/
def specSortEntries (es : List TreeEntry) : List TreeEntry :=
  es.foldl (fun acc e => specInsertEntry e acc) []

/-! ## Reference store, from src/refs/refs.cpp

Paths, ref names and file lines are modelled as `List Char` (std::string
values manipulated character-wise).  The filesystem visible to Refs is a
finite map from path to the first line of the file (everything the code
reads of a ref file is its first getline). -/

/-- A std::string manipulated character-wise. -/
abbrev CStr := List Char

/-- The character content of a string literal. -/
def cstr (s : String) : CStr := s.data

/-- Refs::get_ref_path, refs.cpp lines 263-280: HEAD maps to gitdir/HEAD,
names starting with refs/ map below gitdir, names without any slash map
into gitdir/refs/heads, anything else throws InvalidRefName. -/
def Refs.get_ref_path (gd : CStr) (name : CStr) : Except String CStr :=
  if name = cstr "HEAD" then Except.ok (gd ++ cstr "/HEAD")
  else if name.take 5 = cstr "refs/" then Except.ok (gd ++ cstr "/" ++ name)
  else if !(name.contains '/') then Except.ok (gd ++ cstr "/refs/heads/" ++ name)
  else Except.error ("Invalid ref name: " ++ String.mk name)

/-- One character of the character class of the std::regex
"^[0-9a-fA-F]+$" used at refs.cpp line 307. -/
def isHexChar (c : Char) : Bool :=
  (48 ≤ c.toNat && c.toNat ≤ 57) || (97 ≤ c.toNat && c.toNat ≤ 102) ||
  (65 ≤ c.toNat && c.toNat ≤ 70)

/-- Refs::read_ref_file, refs.cpp lines 291-312, with an explicit fuel
bound standing for the call stack: the outer `none` means the recursion
did not complete within the given depth (the source recurses with no
depth limit at line 303).  Within the fuel: a missing file is `ok none`;
a line starting with "ref: " recurses through get_ref_path on the target
(whose InvalidRefName exception propagates, hence the inner Except); a
40-character hex line is the resolved id; anything else is `ok none`. -/
def Refs.read_ref_file (gd : CStr) (files : List (CStr × CStr)) :
    Nat → CStr → Option (Except String (Option CStr))
  | 0, _ => none
  | Nat.succ fuel, path =>
    match files.lookup path with
    | none => some (Except.ok none)
    | some line =>
      if line.take 5 = cstr "ref: " then
        match Refs.get_ref_path gd (line.drop 5) with
        | Except.ok p => Refs.read_ref_file gd files fuel p
        | Except.error e => some (Except.error e)
      else if line.length = 40 && line.all isHexChar then
        some (Except.ok (some line))
      else some (Except.ok none)

/-- State of the Refs object: the ref files on disk (path to first line),
the in-memory ref_cache_, and the reflog as a list of (name, old id,
new id) triples.  The committer ident and wall-clock timestamp that
log_ref_change also writes (refs.cpp lines 355-360) are elided, being
wall-clock dependent. -/
structure RefsState where
  files : List (CStr × CStr)
  cache : List (CStr × CStr)
  reflog : List (CStr × CStr × CStr)
deriving Repr, DecidableEq

/-- Update-or-append for an association list, the effect of overwriting a
file or a map entry. -/
def setAssoc (l : List (CStr × CStr)) (k : CStr) (v : CStr) : List (CStr × CStr) :=
  match l with
  | [] => [(k, v)]
  | (k2, v2) :: rest => if k2 = k then (k, v) :: rest else (k2, v2) :: setAssoc rest k v

/-- Refs::resolve_ref, refs.cpp lines 243-261: cache hit returns the
cached id; otherwise compute the path (propagating InvalidRefName), throw
RefNotFound when the file is absent, read the file (fuel-bounded), throw
when it does not yield an id, and cache the result. -/
def Refs.resolve_ref (gd : CStr) (st : RefsState) (fuel : Nat) (name : CStr) :
    Option (Except String (CStr × RefsState)) :=
  match st.cache.lookup name with
  | some v => some (Except.ok (v, st))
  | none =>
    match Refs.get_ref_path gd name with
    | Except.error e => some (Except.error e)
    | Except.ok path =>
      if (st.files.lookup path).isNone then
        some (Except.error ("Ref not found: " ++ String.mk name))
      else
        match Refs.read_ref_file gd st.files fuel path with
        | none => none
        | some (Except.error e) => some (Except.error e)
        | some (Except.ok none) =>
          some (Except.error ("Cannot resolve ref: " ++ String.mk name))
        | some (Except.ok (some v)) =>
          some (Except.ok (v, { st with cache := setAssoc st.cache name v }))

/-- Refs::update_ref, refs.cpp lines 52-67: compute the path, throw when
the ref file does not exist, resolve the old value, then unconditionally
overwrite the file with the new target, update the cache, and append a
reflog entry.  There is no expected-old argument and no comparison with
the current value before writing. -/
def Refs.update_ref (gd : CStr) (st : RefsState) (fuel : Nat)
    (name target : CStr) : Option (Except String RefsState) :=
  match Refs.get_ref_path gd name with
  | Except.error e => some (Except.error e)
  | Except.ok path =>
    if (st.files.lookup path).isNone then
      some (Except.error ("Ref does not exist: " ++ String.mk name))
    else
      match Refs.resolve_ref gd st fuel name with
      | none => none
      | some (Except.error e) => some (Except.error e)
      | some (Except.ok (old, st1)) =>
        some (Except.ok
          { files := setAssoc st1.files path target,
            cache := setAssoc st1.cache name target,
            reflog := st1.reflog ++ [(name, old, target)] })

/-! ## Staging index, from src/core/index.cpp -/

/-- An index entry as constructed at index.cpp line 30:
IndexEntry(path, blob_id, mode, st_mtime, st_size).  The entry stores no
ctime, dev or ino fields. -/
structure IndexEntry where
  path : String
  blob_id : String
  mode : FileMode
  mtime : Int
  size : Int
deriving Repr, DecidableEq

/-- The stat fields of a working-tree file that the specification says
modification detection consults. -/
structure FileStatData where
  ctime : Int
  mtime : Int
  dev : Int
  ino : Int
  size : Int
deriving Repr, DecidableEq

/-- Index::is_file_modified, index.cpp lines 241-248: a failed stat means
modified; otherwise the file counts as modified exactly when st_mtime or
st_size differs from the entry.  No other stat field is consulted and the
file content is never re-hashed. -/
def Index.is_file_modified (entry : IndexEntry) (statResult : Option FileStatData) : Bool :=
  match statResult with
  | none => true
  | some s => (s.mtime != entry.mtime) || (s.size != entry.size)

/-! ## Merge engine, from src/merge/merge.cpp

The object database visible to the merge engine is modelled as the map
from id to stored object that ObjectDatabase::store maintains in its
in-memory cache (ObjectDatabase::load, object_database.cpp lines 57-77,
serves from this cache first; the disk tier additionally loses tree
entries because Object::deserialize discards tree content).  Refs are the
name-to-id map maintained by refs.cpp. -/

/-- An object as held by the object database: a commit with its tree id
and parent ids, a tree with its entry list, or a blob. -/
inductive StoredObject where
  | commit (tree_id : String) (parent_ids : List String)
  | tree (entries : List TreeEntry)
  | blob (data : List Nat)
deriving Repr, DecidableEq

/-- Repository state as consulted by MergeCommand::perform_merge: the
object map, the ref map, and the first line of the HEAD file. -/
structure Repo where
  objects : List (String × StoredObject)
  refs : List (String × String)
  headTarget : String
deriving Repr, DecidableEq

/-- ObjectDatabase::load, object_database.cpp lines 57-77: return the
stored object, or throw ObjectNotFound. -/
def ObjectDatabase.load (r : Repo) (id : String) : Except String StoredObject :=
  match r.objects.lookup id with
  | some o => Except.ok o
  | none => Except.error ("Object not found: " ++ id)

/-- Refs::get_head, refs.cpp lines 105-122: a HEAD line starting with
"ref: " resolves the named branch through the ref map (Ref not found when
absent), anything else is a detached id. -/
def Repo.get_head (r : Repo) : Except String String :=
  if r.headTarget.take 5 = "ref: " then
    match r.refs.lookup (r.headTarget.drop 5) with
    | some v => Except.ok v
    | none => Except.error ("Ref not found: " ++ r.headTarget.drop 5)
  else Except.ok r.headTarget

/-- Refs::read_ref as used by perform_merge (refs.cpp lines 86-98): lookup
in the ref map. -/
def Repo.read_ref (r : Repo) (name : String) : Option String :=
  r.refs.lookup name

/-- The merge status values as given in the spec taxonomy.  The code paths
below only ever produce Success, Conflicts, AlreadyUpToDate and Failed;
FastForward appears in no code path. -/
inductive MergeStatus where
  | Success
  | Conflicts
  | AlreadyUpToDate
  | Failed
  | FastForward
deriving Repr, DecidableEq

/-- MergeResult: status, the conflicted paths (the path fields of the
Conflict records), and the message. -/
structure MergeResult where
  status : MergeStatus
  conflicts : List String
  message : String
deriving Repr, DecidableEq

/-- ThreeWayMerge::get_tree_from_commit, merge.cpp lines 50-58: load the
commit (propagating ObjectNotFound) and return its tree id, throwing on a
non-commit object. -/
def ThreeWayMerge.get_tree_from_commit (r : Repo) (commit_id : String) :
    Except String String :=
  match ObjectDatabase.load r commit_id with
  | Except.error e => Except.error e
  | Except.ok (StoredObject.commit t _) => Except.ok t
  | Except.ok _ => Except.error ("Invalid commit: " ++ commit_id)

/-- ThreeWayMerge::get_tree_files, merge.cpp lines 102-119: load the tree
(propagating ObjectNotFound), return the names of its non-directory
entries, and an empty list for a non-tree object. -/
def ThreeWayMerge.get_tree_files (r : Repo) (tree_id : String) :
    Except String (List String) :=
  match ObjectDatabase.load r tree_id with
  | Except.error e => Except.error e
  | Except.ok (StoredObject.tree es) =>
      Except.ok ((es.filter (fun e => e.mode ≠ FileMode.Directory)).map (fun e => e.name))
  | Except.ok _ => Except.ok []

/-- Ordered insertion without duplicates, the effect of std::set insert
(iteration over a std::set of strings is in ascending order). -/
def setInsert (s : String) : List String → List String
  | [] => [s]
  | x :: xs =>
      if strLt s x then s :: x :: xs
      else if strLt x s then x :: setInsert s xs
      else x :: xs

/-- Building the std::set all_files from the three file lists,
merge.cpp lines 81-84. -/
def setOfAll (l : List String) : List String :=
  l.foldl (fun acc s => setInsert s acc) []

/-- ThreeWayMerge::perform_three_way_merge, merge.cpp lines 60-100:
collect the file names of the three trees, and for every name in the set
union record a conflict when the file is present in both our tree and
their tree (the second disjunct of line 92 repeats that test with an
added not-in-base condition).  Blob ids are never compared. -/
def ThreeWayMerge.perform_three_way_merge (r : Repo)
    (base_tree our_tree their_tree : String) : Except String (List String) :=
  match ThreeWayMerge.get_tree_files r base_tree with
  | Except.error e => Except.error e
  | Except.ok base_files =>
    match ThreeWayMerge.get_tree_files r our_tree with
    | Except.error e => Except.error e
    | Except.ok our_files =>
      match ThreeWayMerge.get_tree_files r their_tree with
      | Except.error e => Except.error e
      | Except.ok their_files =>
        let all_files := setOfAll (base_files ++ our_files ++ their_files)
        Except.ok (all_files.filter (fun f =>
          (our_files.contains f && their_files.contains f) ||
          (!(base_files.contains f) && our_files.contains f && their_files.contains f)))

/-- The try block of ThreeWayMerge::merge, merge.cpp lines 24-41: resolve
the three trees then run the tree merge. -/
def ThreeWayMerge.mergeTry (r : Repo) (base_commit our_commit their_commit : String) :
    Except String (List String) :=
  match ThreeWayMerge.get_tree_from_commit r base_commit with
  | Except.error e => Except.error e
  | Except.ok base_tree =>
    match ThreeWayMerge.get_tree_from_commit r our_commit with
    | Except.error e => Except.error e
    | Except.ok our_tree =>
      match ThreeWayMerge.get_tree_from_commit r their_commit with
      | Except.error e => Except.error e
      | Except.ok their_tree =>
        ThreeWayMerge.perform_three_way_merge r base_tree our_tree their_tree

/-- ThreeWayMerge::merge, merge.cpp lines 15-48: empty conflict list means
Success, a nonempty list means Conflicts, and a thrown exception is caught
as Failed. -/
def ThreeWayMerge.merge (r : Repo) (base_commit our_commit their_commit : String) :
    MergeResult :=
  match ThreeWayMerge.mergeTry r base_commit our_commit their_commit with
  | Except.error e =>
      { status := MergeStatus.Failed, conflicts := [], message := "Merge failed: " ++ e }
  | Except.ok [] =>
      { status := MergeStatus.Success, conflicts := [], message := "Merge successful" }
  | Except.ok cs =>
      { status := MergeStatus.Conflicts, conflicts := cs, message := "Merge conflicts detected" }

/-- merge::find_merge_base, merge.cpp lines 361-367: the simplified
implementation returns its first argument (our commit), never a computed
common ancestor. -/
def merge.find_merge_base (r : Repo) (commit1 commit2 : String) : String :=
  commit1

/-- MergeCommand::perform_merge, merge.cpp lines 323-350: resolve HEAD to
our commit, look up their branch (throw when missing), report
AlreadyUpToDate when the two ids coincide, compute the merge base (which
the source takes to be our commit), throw when it is empty, and run the
three-way merge.  No branch ref is updated and no commit object is
created on any path of this function. -/
def MergeCommand.perform_merge (r : Repo) (branch_name : String) :
    Except String MergeResult :=
  match Repo.get_head r with
  | Except.error e => Except.error e
  | Except.ok our_commit =>
    match Repo.read_ref r ("refs/heads/" ++ branch_name) with
    | none => Except.error ("Branch not found: " ++ branch_name)
    | some their_commit =>
      if our_commit = their_commit then
        Except.ok { status := MergeStatus.AlreadyUpToDate, conflicts := [],
                    message := "Already up to date" }
      else
        let base_commit := merge.find_merge_base r our_commit their_commit
        if base_commit = "" then Except.error "No common ancestor found"
        else Except.ok (ThreeWayMerge.merge r base_commit our_commit their_commit)

/-! ## Concrete repository states used as inputs to the theorems -/

/-- A 40-character hex object id with every digit 1. -/
def oidOnes : String := String.mk (List.replicate 40 '1')

/-- A tree entry for a regular file a.txt. -/
def demoTreeEntry : TreeEntry := ⟨FileMode.Regular, oidOnes, "a.txt"⟩

/-- A repository holding one tree t1 that contains a.txt. -/
def demoRepo5 : Repo := ⟨[("t1", StoredObject.tree [demoTreeEntry])], [], ""⟩

/-- A repository with two commits: c1 (empty tree t1, the current HEAD via
refs/heads/main) and c2 (tree t2 adding a.txt, the tip of
refs/heads/feat). -/
def demoRepo6 : Repo :=
  ⟨[("c1", StoredObject.commit "t1" []), ("c2", StoredObject.commit "t2" []),
    ("t1", StoredObject.tree []), ("t2", StoredObject.tree [demoTreeEntry])],
   [("refs/heads/main", "c1"), ("refs/heads/feat", "c2")],
   "ref: refs/heads/main"⟩

/-- A 40-character hex id, all a. -/
def oidA : CStr := List.replicate 40 'a'

/-- A 40-character hex id, all b. -/
def oidB : CStr := List.replicate 40 'b'

/-- A 40-character hex id, all c. -/
def oidC : CStr := List.replicate 40 'c'

/-- A ref store whose only ref is refs/heads/main with current value
`oidA`, empty cache and empty reflog. -/
def demoRefs7 : RefsState := ⟨[(cstr ".git/refs/heads/main", oidA)], [], []⟩

/-- Two ref files forming a symbolic-ref cycle: A is "ref: B" and B is
"ref: A". -/
def cycleFiles : List (CStr × CStr) :=
  [(cstr ".git/refs/heads/A", cstr "ref: B"), (cstr ".git/refs/heads/B", cstr "ref: A")]

/-- An index entry for hello.txt whose blob id is the hash of the content
"hello", with recorded mtime 1 and size 5. -/
def demoEntry9 : IndexEntry :=
  ⟨"hello.txt", SHA1.hash (asciiBytes "hello"), FileMode.Regular, 1, 5⟩

/-- Stat data for the same file after a touch: same size 5, same content
(so the same blob id), but mtime now 2. -/
def demoStat9 : FileStatData := ⟨7, 2, 3, 4, 5⟩

/-! ## Theorems -/

set_option maxRecDepth 40000

/-- Claim C10: calling final on an already finalized hasher raises no
error and returns the same hex digest and the same state as the first
finalization, while update after finalization fails with the
UsageAfterFinalize exception. -/
theorem sha1_finalize_idempotent (s : SHA1State) (d : List Nat) :
    SHA1.finalize ((SHA1.finalize s).2) = ((SHA1.finalize s).1, (SHA1.finalize s).2) ∧
    SHA1.update ((SHA1.finalize s).2) d =
      Except.error "SHA1: Cannot update after finalization" := by
  by_cases hs : s.finalized
  · simp [SHA1.finalize, SHA1.update, hs]
  · simp [SHA1.finalize, SHA1.update, hs, digestBytesMembers, digestBytesStore]

/-- Claim C2: the known-answer digests fail on the code.  SHA1::final
serializes the five state words in native little-endian byte order, so on
the little-endian target platforms every 32-bit word of the digest comes
out byte-reversed: the empty string, abc and hello world hash to the
word-swapped strings below instead of the required values.  The last three
conjuncts show the compression pipeline itself is standard: re-serializing
the same final state big-endian yields exactly the required digests. -/
theorem sha1_known_answers_fail :
    SHA1.hash (asciiBytes "") = "eea339da0d4b6b5eefbf5532901860950907d8af" ∧
    SHA1.hash (asciiBytes "abc") = "363e99a96a81064771253eba6cc250789dd8d09c" ∧
    SHA1.hash (asciiBytes "hello world") = "356cae2ab4cf4fc95fe9db15e99c8b40ed46e81e" ∧
    SHA1.hash (asciiBytes "") ≠ "da39a3ee5e6b4b0d3255bfef95601890afd80709" ∧
    SHA1.hash (asciiBytes "abc") ≠ "a9993e364706816aba3e25717850c26c9cd0d89d" ∧
    SHA1.hash (asciiBytes "hello world") ≠ "2aae6c35c94fcfb415dbe95f408b9ce91ee846ed" ∧
    sha1HexBE (asciiBytes "") = "da39a3ee5e6b4b0d3255bfef95601890afd80709" ∧
    sha1HexBE (asciiBytes "abc") = "a9993e364706816aba3e25717850c26c9cd0d89d" ∧
    sha1HexBE (asciiBytes "hello world") = "2aae6c35c94fcfb415dbe95f408b9ce91ee846ed" := by
  have h1 : SHA1.hash (asciiBytes "") = "eea339da0d4b6b5eefbf5532901860950907d8af" := by
    decide
  have h2 : SHA1.hash (asciiBytes "abc") = "363e99a96a81064771253eba6cc250789dd8d09c" := by
    decide
  have h3 : SHA1.hash (asciiBytes "hello world") =
      "356cae2ab4cf4fc95fe9db15e99c8b40ed46e81e" := by decide
  refine ⟨h1, h2, h3, ?_, ?_, ?_, by decide, by decide, by decide⟩
  · rw [h1]; decide
  · rw [h2]; decide
  · rw [h3]; decide

/-- Claim C1: the framed bytes hashed and stored for a blob contain no NUL
separator.  For the empty payload, both Object::compute_id and
ObjectDatabase::store frame the bytes of "blob 0" with nothing between the
header and the payload (the C++ operator<< on the "\x5c0" literal writes an
empty C string), the object id is the hash of those NUL-free bytes, and
that id differs from the digest of the spec framing "blob 0" plus NUL
(whose standard digest is the well-known empty-blob id e69de29b...). -/
theorem blob_framing_lacks_nul :
    ObjectDatabase.storeFramedData ObjectType.blob [] = asciiBytes "blob 0" ∧
    computeIdData ObjectType.blob [] = asciiBytes "blob 0" ∧
    Object.compute_id ObjectType.blob [] = SHA1.hash (asciiBytes "blob 0") ∧
    specFramedData ObjectType.blob [] = asciiBytes "blob 0" ++ [0] ∧
    (0 : Nat) ∉ ObjectDatabase.storeFramedData ObjectType.blob [] ∧
    ObjectDatabase.storeFramedData ObjectType.blob [] ≠ specFramedData ObjectType.blob [] ∧
    Object.compute_id ObjectType.blob [] ≠ sha1HexBE (specFramedData ObjectType.blob []) ∧
    sha1HexBE (specFramedData ObjectType.blob []) =
      "e69de29bb2d1d6434b8b29ae775ad8c2e48c5391" := by
  refine ⟨by decide, by decide, congrArg SHA1.hash (by decide), by decide, by decide,
    by decide, ?_, by decide⟩
  decide

/-- Every byte emitted by the decimal printer is an ASCII digit, so at
least 48. -/
lemma decDigitsAux_ge (fuel n : Nat) : ∀ d ∈ decDigitsAux fuel n, 48 ≤ d := by
  induction fuel generalizing n with
  | zero => intro d hd; simp [decDigitsAux] at hd; omega
  | succ fuel ih =>
    intro d hd
    rw [decDigitsAux] at hd
    by_cases h : n < 10
    · rw [if_pos h] at hd; simp at hd; omega
    · rw [if_neg h, List.mem_append] at hd
      rcases hd with h1 | h1
      · exact ih (n / 10) d h1
      · simp at h1; omega

/-- The decimal length field contains no NUL byte. -/
lemma decDigits_ge (n : Nat) : ∀ d ∈ decDigits n, 48 ≤ d :=
  decDigitsAux_ge n n

/-- strFind misses exactly when the byte is absent. -/
lemma strFind_eq_none {b : Nat} {l : List Nat} (h : ∀ x ∈ l, x ≠ b) :
    strFind b l = none := by
  induction l with
  | nil => rfl
  | cons x xs ih =>
    rw [strFind, if_neg (h x (by simp)), ih (fun y hy => h y (List.mem_cons_of_mem x hy))]
    rfl

/-- Claim C3: the encode/decode round trip fails for blobs.  The framed
form produced for a blob payload contains no NUL byte when the payload has
none (the header bytes are letters, a space and decimal digits), and
Object::deserialize begins by searching for a NUL and throws when there is
none — so decoding the encoded form of any NUL-free payload throws
MalformedObject instead of returning the payload. -/
theorem blob_decode_encode_fails (b : List Nat) (h : ∀ x ∈ b, x ≠ 0) :
    Object.deserialize (ObjectDatabase.storeFramedData ObjectType.blob b) =
      Except.error "Invalid object data: no null terminator" := by
  have hall : ∀ x ∈ ObjectDatabase.storeFramedData ObjectType.blob b, x ≠ 0 := by
    intro x hx
    unfold ObjectDatabase.storeFramedData at hx
    simp only [List.mem_append] at hx
    rcases hx with ((h1 | h1) | h1) | h1
    · revert h1
      have : ∀ y ∈ asciiBytes (ObjectType.word ObjectType.blob), y ≠ 0 := by decide
      exact fun h1 => this x h1
    · simp at h1; omega
    · have := decDigits_ge b.length x h1; omega
    · exact h x h1
  rw [Object.deserialize, strFind_eq_none hall]

/-- Witness for C3 at the concrete payload "hello". -/
theorem blob_decode_encode_fails_witness :
    Object.deserialize (ObjectDatabase.storeFramedData ObjectType.blob (asciiBytes "hello")) =
      Except.error "Invalid object data: no null terminator" :=
  blob_decode_encode_fails (asciiBytes "hello") (by decide)

/-- Claim C4: the canonical tree payload diverges from the claim.  For a
tree holding the single regular entry a.txt, the payload is the decimal
enumerator value, a space, the name, and immediately the 20 raw id bytes:
no NUL terminates the name (the payload contains no NUL at all, while the
spec form of the same entry does).  Moreover the entries are sorted by
plain byte-wise name comparison: a regular file a.b and a directory a are
ordered [a, a.b], whereas ordering directory names with a trailing slash
puts a.b first. -/
theorem tree_payload_diverges :
    Tree.payloadData (Tree.add_entry [] demoTreeEntry) =
      asciiBytes "33188 a.txt" ++ List.replicate 20 17 ∧
    (0 : Nat) ∉ Tree.payloadData (Tree.add_entry [] demoTreeEntry) ∧
    (0 : Nat) ∈ specTreeEntryBytes demoTreeEntry ∧
    (Tree.add_entry (Tree.add_entry [] ⟨FileMode.Regular, oidOnes, "a.b"⟩)
        ⟨FileMode.Directory, oidOnes, "a"⟩).map TreeEntry.name = ["a", "a.b"] ∧
    (specSortEntries [⟨FileMode.Regular, oidOnes, "a.b"⟩,
        ⟨FileMode.Directory, oidOnes, "a"⟩]).map TreeEntry.name = ["a.b", "a"] := by
  refine ⟨by decide, by decide, by decide, by decide, by decide⟩

/-- Claim C5: a path present with the same blob id in the base, our and
their trees is nevertheless recorded as a conflict.  Merging the tree t1
(holding a.txt with id oidOnes) with itself as base, ours and theirs
reports a.txt as conflicted: perform_three_way_merge never compares blob
ids, it flags every non-directory name present in both our tree and their
tree. -/
theorem identical_trees_conflict :
    ThreeWayMerge.perform_three_way_merge demoRepo5 "t1" "t1" "t1" =
      Except.ok ["a.txt"] := by
  rfl

/-- Claim C6 counterexample: in demoRepo6 the computed merge base for
merging feat into main is our commit c1 itself and ours differs from
theirs, yet perform_merge returns Success from a full tree walk — not
FastForward — and neither advances any branch ref nor creates a commit
(perform_merge only reads the repository state). -/
theorem merge_base_ours_no_fast_forward_cex :
    merge.find_merge_base demoRepo6 "c1" "c2" = "c1" ∧
    ("c1" : String) ≠ "c2" ∧
    MergeCommand.perform_merge demoRepo6 "feat" =
      Except.ok ⟨MergeStatus.Success, [], "Merge successful"⟩ ∧
    MergeStatus.Success ≠ MergeStatus.FastForward :=
  ⟨rfl, by decide, rfl, by decide⟩

/-- The status produced by ThreeWayMerge::merge is always Failed, Success
or Conflicts; in particular it is never FastForward. -/
lemma merge_status_not_fast_forward (r : Repo) (b o t : String) :
    (ThreeWayMerge.merge r b o t).status ≠ MergeStatus.FastForward := by
  unfold ThreeWayMerge.merge
  rcases h : ThreeWayMerge.mergeTry r b o t with e | cs
  · simp
  · cases cs <;> simp

/-- Claim C6 amended: whenever HEAD resolves to our commit, the named
branch resolves to a different commit, and our commit is nonempty — so in
particular whenever the merge base (which the source always takes to be
our commit) equals ours — perform_merge does not fast-forward: it returns
the result of the full three-way tree merge with base = ours, whose status
is never FastForward, and it neither advances the branch ref nor creates
a merge commit. -/
theorem merge_never_fast_forward (r : Repo) (branch our_commit their_commit : String)
    (h1 : Repo.get_head r = Except.ok our_commit)
    (h2 : Repo.read_ref r ("refs/heads/" ++ branch) = some their_commit)
    (h3 : our_commit ≠ their_commit) (h4 : our_commit ≠ "") :
    MergeCommand.perform_merge r branch =
      Except.ok (ThreeWayMerge.merge r our_commit our_commit their_commit) ∧
    (ThreeWayMerge.merge r our_commit our_commit their_commit).status ≠
      MergeStatus.FastForward := by
  refine ⟨?_, merge_status_not_fast_forward r our_commit our_commit their_commit⟩
  unfold MergeCommand.perform_merge
  rw [h1, h2]
  simp [h3, merge.find_merge_base, h4]

/-- Witness for C6 at demoRepo6: merging feat when HEAD is main. -/
theorem merge_never_fast_forward_witness :
    MergeCommand.perform_merge demoRepo6 "feat" =
      Except.ok (ThreeWayMerge.merge demoRepo6 "c1" "c1" "c2") ∧
    (ThreeWayMerge.merge demoRepo6 "c1" "c1" "c2").status ≠ MergeStatus.FastForward :=
  merge_never_fast_forward demoRepo6 "feat" "c1" "c2" rfl rfl (by decide) (by decide)

/-- Claim C7 counterexample: with refs/heads/main currently at oidA, a
caller expecting the old value oidB (which differs from the current
value) and writing oidC does not get a RefStale failure: update_ref
succeeds unconditionally and the stored value becomes oidC.  No RefStale
error exists anywhere in the reference store. -/
theorem update_ref_ignores_staleness_cex :
    Refs.update_ref (cstr ".git") demoRefs7 2 (cstr "refs/heads/main") oidC =
      some (Except.ok
        { files := [(cstr ".git/refs/heads/main", oidC)],
          cache := [(cstr "refs/heads/main", oidC)],
          reflog := [(cstr "refs/heads/main", oidA, oidC)] }) ∧
    oidA ≠ oidB :=
  ⟨rfl, by decide⟩

/-- One read step of a ref file holding a direct 40-hex id. -/
lemma read_ref_file_direct (gd : CStr) (files : List (CStr × CStr)) (fuel : Nat)
    (path line : CStr)
    (hlk : files.lookup path = some line)
    (hpre : ¬ (line.take 5 = cstr "ref: "))
    (hlen : line.length = 40) (hhex : line.all isHexChar = true) :
    Refs.read_ref_file gd files (fuel + 1) path = some (Except.ok (some line)) := by
  rw [Refs.read_ref_file, hlk]
  simp [hpre, hlen, hhex]

/-- A take of a list is a sublist, so a string all of whose characters are
hex digits cannot start with "ref: ". -/
lemma hex_no_symref_marker (v : CStr) (hhex : v.all isHexChar = true) :
    ¬ (v.take 5 = cstr "ref: ") := by
  intro hq
  have hr : 'r' ∈ v := List.take_subset 5 v (by rw [hq]; decide)
  have := List.all_eq_true.mp hhex 'r' hr
  exact absurd this (by decide)

/-- Claim C7 amended: update_ref performs no compare-and-set.  Whatever
40-hex value v the ref currently holds — in particular one differing from
any expected old value a caller might have — updating refs/heads/main to
any target succeeds, overwrites the stored value with the target,
refreshes the cache and appends a reflog entry recording old value v.  It
fails only when the ref file does not exist ("Ref does not exist"), and no
RefStale outcome exists. -/
theorem update_ref_overwrites_unconditionally (v target : CStr) (fuel : Nat)
    (hlen : v.length = 40) (hhex : v.all isHexChar = true) :
    Refs.update_ref (cstr ".git")
        ⟨[(cstr ".git/refs/heads/main", v)], [], []⟩ (fuel + 1)
        (cstr "refs/heads/main") target =
      some (Except.ok
        { files := [(cstr ".git/refs/heads/main", target)],
          cache := [(cstr "refs/heads/main", target)],
          reflog := [(cstr "refs/heads/main", v, target)] }) := by
  have hpath : Refs.get_ref_path (cstr ".git") (cstr "refs/heads/main") =
      Except.ok (cstr ".git/refs/heads/main") := rfl
  have hlk : List.lookup (cstr ".git/refs/heads/main")
      [(cstr ".git/refs/heads/main", v)] = some v := by
    simp [List.lookup]
  have hread : Refs.read_ref_file (cstr ".git") [(cstr ".git/refs/heads/main", v)]
      (fuel + 1) (cstr ".git/refs/heads/main") = some (Except.ok (some v)) :=
    read_ref_file_direct _ _ fuel _ v hlk (hex_no_symref_marker v hhex) hlen hhex
  have hres : Refs.resolve_ref (cstr ".git")
      ⟨[(cstr ".git/refs/heads/main", v)], [], []⟩ (fuel + 1)
      (cstr "refs/heads/main") =
      some (Except.ok (v,
        ⟨[(cstr ".git/refs/heads/main", v)], [(cstr "refs/heads/main", v)], []⟩)) := by
    unfold Refs.resolve_ref
    simp only [hpath, hlk, hread, List.lookup_nil]
    rfl
  unfold Refs.update_ref
  simp only [hpath, hlk, hres]
  simp [setAssoc]

/-- Witness for C7 with current value oidA and new target oidC. -/
theorem update_ref_overwrites_unconditionally_witness :
    Refs.update_ref (cstr ".git")
        ⟨[(cstr ".git/refs/heads/main", oidA)], [], []⟩ (1 + 1)
        (cstr "refs/heads/main") oidC =
      some (Except.ok
        { files := [(cstr ".git/refs/heads/main", oidC)],
          cache := [(cstr "refs/heads/main", oidC)],
          reflog := [(cstr "refs/heads/main", oidA, oidC)] }) :=
  update_ref_overwrites_unconditionally oidA oidC 1 (by decide) (by decide)

/-- Claim C8: reading a ref with a symbolic-ref cycle never terminates.
For the two-file cycle A -> B -> A, the recursion in read_ref_file
exhausts every finite call-stack bound: there is no depth cap of 5 and no
SymrefCycle error in the code, the function simply recurses until the
stack overflows. -/
theorem symref_cycle_never_terminates :
    ∀ fuel : Nat,
      Refs.read_ref_file (cstr ".git") cycleFiles fuel (cstr ".git/refs/heads/A") =
        none := by
  have key : ∀ fuel : Nat,
      Refs.read_ref_file (cstr ".git") cycleFiles fuel (cstr ".git/refs/heads/A") = none ∧
      Refs.read_ref_file (cstr ".git") cycleFiles fuel (cstr ".git/refs/heads/B") = none := by
    intro fuel
    induction fuel with
    | zero => exact ⟨rfl, rfl⟩
    | succ n ih =>
      refine ⟨?_, ?_⟩
      · have hstep : Refs.read_ref_file (cstr ".git") cycleFiles (n + 1)
              (cstr ".git/refs/heads/A") =
            Refs.read_ref_file (cstr ".git") cycleFiles n (cstr ".git/refs/heads/B") := rfl
        rw [hstep]
        exact ih.2
      · have hstep : Refs.read_ref_file (cstr ".git") cycleFiles (n + 1)
              (cstr ".git/refs/heads/B") =
            Refs.read_ref_file (cstr ".git") cycleFiles n (cstr ".git/refs/heads/A") := rfl
        rw [hstep]
        exact ih.1
  exact fun fuel => (key fuel).1

/-- Claim C9 counterexample: an index entry whose blob id is the hash of
the content "hello" with recorded (mtime 1, size 5), and a stat result
with the same size but a fresh mtime 2 while the content is unchanged (it
still hashes to the stored blob id): is_file_modified reports true, though
re-hashing would find the blob id unchanged. -/
theorem is_modified_ignores_oid_cex :
    Index.is_file_modified demoEntry9 (some demoStat9) = true ∧
    demoEntry9.blob_id = SHA1.hash (asciiBytes "hello") ∧
    demoStat9.size = demoEntry9.size :=
  ⟨by decide, rfl, rfl⟩

/-- Claim C9 amended: is_file_modified consults only mtime and size.  The
file counts as unchanged exactly when both st_mtime and st_size match the
entry (a failed stat counts as modified); ctime, dev and ino are neither
stored in the entry nor consulted, and no re-hashing ever happens — the
verdict is fully determined by the (mtime, size) pair of the stat
result. -/
theorem is_modified_mtime_size_only (e : IndexEntry) (s s2 : FileStatData)
    (hm : s.mtime = s2.mtime) (hsz : s.size = s2.size) :
    (Index.is_file_modified e (some s) = false ↔ s.mtime = e.mtime ∧ s.size = e.size) ∧
    Index.is_file_modified e none = true ∧
    Index.is_file_modified e (some s) = Index.is_file_modified e (some s2) := by
  refine ⟨?_, rfl, ?_⟩
  · simp [Index.is_file_modified]
  · simp [Index.is_file_modified, hm, hsz]

/-- Witness for C9 at the concrete entry and stat data. -/
theorem is_modified_mtime_size_only_witness :
    (Index.is_file_modified demoEntry9 (some demoStat9) = false ↔
      demoStat9.mtime = demoEntry9.mtime ∧ demoStat9.size = demoEntry9.size) ∧
    Index.is_file_modified demoEntry9 none = true ∧
    Index.is_file_modified demoEntry9 (some demoStat9) =
      Index.is_file_modified demoEntry9 (some demoStat9) :=
  is_modified_mtime_size_only demoEntry9 demoStat9 demoStat9 rfl rfl

end DGit
